import Mathlib

/-!
Verification of the SmartPharma pharmacy-inventory backend.

The Python modules `database.py`, `ai_predictor.py`, `alert_manager.py`,
`app.py` and `chatbot.py` are shallowly embedded below: dates are modelled by
their day numbers (`Int`), Python floats by rationals, the product table by a
list of rows, and fallible computations by `Option`.  Each claim about the
system is then stated and settled as a theorem over these definitions.
-/

namespace SmartPharma

/-- The stored value of a product's `expiry_date` field as the computations see
it: a well-formed `YYYY-MM-DD` string (represented by the day number of the
date it denotes), a string that `datetime.strptime` rejects, or a
missing/NULL value. -/
inductive ExpiryField where
  | date (d : Int)
  | malformed
  | missing
  deriving DecidableEq, Repr

/-- A row of the `products` table (database.py, `create_tables`).  Nullable
columns are `Option`; `eco_score` and `price` (Python floats) are rationals;
integer columns are `Int` (Python ints are unbounded). -/
structure Product where
  id : Int
  name : String
  category : Option String
  barcode : Option String
  expiry_date : ExpiryField
  packaging_type : Option String
  eco_score : ℚ
  stock_quantity : Int
  price : ℚ
  deriving DecidableEq, Repr

/-- Outcome of `datetime.strptime(expiry, "%Y-%m-%d").date()` (and the later
use of the value): `some d` when the field holds a well-formed date with day
number `d`, `none` when the computation raises (malformed string, or a missing
value used in date arithmetic). -/
def parseExpiry : ExpiryField → Option Int
  | .date d => some d
  | _ => none

/-- Three-tier risk level of `AIPredictors.predict_expiring_medicines`
(ai_predictor.py line 35). -/
def risk_level (days_left : Int) : String :=
  if days_left < 2 then "critical" else if days_left < 4 then "high" else "medium"

/-- Urgency score `max(0, 10 - days_left)` (ai_predictor.py line 34). -/
def urgency_score (days_left : Int) : Int := max 0 (10 - days_left)

/-- Two-tier severity of an expiry alert in the `/api/alerts` route
(app.py line 190). -/
def route_severity (days_left : Int) : String :=
  if days_left < 2 then "critical" else "warning"

/-- Severity in `AlertManager.check_expiring_alerts`
(alert_manager.py lines 48-53). -/
def manager_severity (days_left : Int) : String :=
  if days_left < 1 then "critical" else if days_left < 3 then "high" else "warning"

/-- Next value of the `SERIAL` id sequence for the products table. -/
def next_id (table : List Product) : Int :=
  (table.foldr (fun p m => max p.id m) 0) + 1

/-- `Database.insert_product` (database.py lines 102-126).  The UNIQUE
constraint on `barcode` makes the INSERT raise `IntegrityError` when the
barcode is already present; that path rolls back (table unchanged) and returns
`None`.  Otherwise the row is inserted and its new id returned. -/
def insert_product (table : List Product) (name category barcode : String)
    (expiry_date : ExpiryField) (packaging_type : String) (eco_score : ℚ)
    (stock_quantity : Int) (price : ℚ) : Option Int × List Product :=
  if table.any (fun q => q.barcode = some barcode) then (none, table)
  else
    let pid := next_id table
    (some pid, table ++
      [{ id := pid, name := name, category := some category,
         barcode := some barcode, expiry_date := expiry_date,
         packaging_type := some packaging_type, eco_score := eco_score,
         stock_quantity := stock_quantity, price := price }])

/-- The packaging-type → eco-score table of the `/api/add-product` route
(app.py lines 126-134), looked up on the lowercased packaging type with
default 5.0. -/
def eco_score_for (packaging_type : String) : ℚ :=
  let p := packaging_type.toLower
  if p = "plastic" then 7/2
  else if p = "paper" then 8
  else if p = "glass" then 15/2
  else if p = "cardboard" then 17/2
  else if p = "metal" then 7
  else if p = "biodegradable" then 19/2
  else 5

/-- The JSON body of an `/api/add-product` request; a `none` field models an
absent key. -/
structure AddProductRequest where
  name : Option String
  category : Option String
  barcode : Option String
  expiry_date : Option ExpiryField
  packaging_type : Option String
  stock_quantity : Option Int
  price : Option ℚ
  deriving DecidableEq, Repr

/-- The JSON envelope returned by `/api/add-product`. -/
structure AddProductResponse where
  status : String
  http_code : Nat
  message : String
  product_id : Option Int
  deriving DecidableEq, Repr

/-- The `/api/add-product` route (app.py lines 114-154): reject with 400 when a
required field is absent; otherwise compute the eco score and insert.  The
route does not inspect `insert_product`'s return value, so the duplicate-
barcode path (insert returns `none`) still answers `status = "success"`. -/
def add_product (table : List Product) (req : AddProductRequest) :
    AddProductResponse × List Product :=
  match req.name, req.category, req.barcode, req.expiry_date, req.packaging_type,
      req.stock_quantity, req.price with
  | some name, some category, some barcode, some expiry, some packaging,
      some stock, some price =>
    let eco := eco_score_for packaging
    let r := insert_product table name category barcode expiry packaging eco stock price
    ({ status := "success", http_code := 200, message := "Product added successfully",
       product_id := r.1 }, r.2)
  | _, _, _, _, _, _, _ =>
    ({ status := "error", http_code := 400, message := "Missing required fields",
       product_id := none }, table)

/-- A concrete product row used by the concrete-input theorems. -/
def sampleProduct : Product :=
  { id := 1, name := "Aspirin 500mg", category := some "Analgesics",
    barcode := some "ASP001", expiry_date := .date 20500,
    packaging_type := some "Cardboard", eco_score := 17/2,
    stock_quantity := 150, price := 599/100 }

/-- A complete creation request whose barcode collides with `sampleProduct`. -/
def dupRequest : AddProductRequest :=
  { name := some "Aspirin duplicate", category := some "Analgesics",
    barcode := some "ASP001", expiry_date := some (.date 20600),
    packaging_type := some "Paper", stock_quantity := some 10, price := some 3 }

/-- The same request with the `barcode` key absent. -/
def missingFieldRequest : AddProductRequest :=
  { dupRequest with barcode := none }

/-- A row of the `transactions` table (database.py, `create_tables`). -/
structure Txn where
  id : Int
  product_id : Int
  quantity_change : Int
  amount : ℚ
  transaction_type : String
  barcode : String
  deriving DecidableEq, Repr

/-- The persistent state touched by the sale flow. -/
structure Store where
  products : List Product
  transactions : List Txn
  deriving DecidableEq, Repr

/-- Modelled from the spec: `db.get_product_by_id` is called by
`/api/record-sale` but its definition is absent from the sources; spec
section 2 has the store expose a "by id" query.  Returns the row with the
given id. -/
def get_product_by_id (table : List Product) (pid : Int) : Option Product :=
  table.find? (fun p => p.id == pid)

/-- Modelled from the spec: `db.record_transaction` is called by
`/api/record-sale` but its definition is absent from the sources; spec
section 3 has a transaction record a stock delta with a type tag.  Appends a
row and returns its id. -/
def record_transaction (s : Store) (pid qty : Int) (amount : ℚ)
    (ttype barcode : String) : Int × Store :=
  let tid := (s.transactions.foldr (fun t m => max t.id m) 0) + 1
  (tid, { s with transactions := s.transactions ++
                   [{ id := tid, product_id := pid, quantity_change := qty,
                      amount := amount, transaction_type := ttype,
                      barcode := barcode }] })

/-- Modelled from the spec: `db.update_product_stock` is called by
`/api/record-sale` but its definition is absent from the sources; spec
section 2 has the store expose a stock mutation.  Sets the row's
`stock_quantity`. -/
def update_product_stock (table : List Product) (pid new_stock : Int) : List Product :=
  table.map (fun p => if p.id = pid then { p with stock_quantity := new_stock } else p)

/-- The JSON body of an `/api/record-sale` request. -/
structure SaleRequest where
  barcode : Option String
  quantity : Option Int
  amount : Option ℚ
  product_id : Option Int
  deriving DecidableEq, Repr

/-- The JSON envelope returned by `/api/record-sale`. -/
structure SaleResponse where
  status : String
  http_code : Nat
  message : String
  transaction_id : Option Int
  deriving DecidableEq, Repr

/-- The `/api/record-sale` route (app.py lines 403-450): validate the request,
look the product up by id, reject with 400 "Insufficient stock" when the stock
is below the requested quantity, and only otherwise record the transaction and
write the decremented stock. -/
def record_sale (s : Store) (req : SaleRequest) : SaleResponse × Store :=
  match req.barcode, req.quantity, req.amount, req.product_id with
  | some barcode, some quantity, some amount, some product_id =>
    match get_product_by_id s.products product_id with
    | none => ({ status := "error", http_code := 404, message := "Product not found",
                 transaction_id := none }, s)
    | some product =>
      if product.stock_quantity < quantity then
        ({ status := "error", http_code := 400, message := "Insufficient stock",
           transaction_id := none }, s)
      else
        let r := record_transaction s product_id quantity amount "sale" barcode
        let products2 := update_product_stock r.2.products product_id
          (product.stock_quantity - quantity)
        ({ status := "success", http_code := 200,
           message := "Sale recorded successfully", transaction_id := some r.1 },
         { r.2 with products := products2 })
  | _, _, _, _ =>
    ({ status := "error", http_code := 400, message := "Missing required fields",
       transaction_id := none }, s)

/-- The concrete store of the C2 witness: one product with stock 5. -/
def saleStore : Store :=
  { products := [{ sampleProduct with stock_quantity := 5 }], transactions := [] }

/-- The concrete sale request of the C2 witness: quantity 10 against stock 5. -/
def saleReq : SaleRequest :=
  { barcode := some "ASP001", quantity := some 10, amount := some 60,
    product_id := some 1 }


/-- Rounding to one decimal place, modelling Python's `round(x, 1)`.  Python
rounds ties to even while this rounds ties up; the two agree on every non-tie
value, and no confidence value produced by the seasonal-demand table is a
tie. -/
def round1 (q : ℚ) : ℚ := (⌊q * 10 + 1/2⌋ : ℚ) / 10

/-- Rounding to two decimal places, modelling Python's `round(x, 2)` (same
tie-handling caveat as `round1`). -/
def round2 (q : ℚ) : ℚ := (⌊q * 100 + 1/2⌋ : ℚ) / 100

/-- The `seasonal_patterns` table of `AIPredictors.__init__`
(ai_predictor.py lines 10-16) with the `.get` default `([], 100)`
(line 48): peak months and base demand per category. -/
def seasonal_patterns (category : String) : List Nat × Int :=
  if category = "Analgesics" then ([1, 2, 11, 12], 150)
  else if category = "Antibiotics" then ([1, 3, 11], 120)
  else if category = "Supplements" then ([1, 9], 200)
  else if category = "Diabetes" then ([], 100)
  else if category = "Gastric" then ([2, 7, 8], 110)
  else ([], 100)

/-- `demand_multiplier` (ai_predictor.py line 52): 1.5 in a peak month,
else 1.0. -/
def demand_multiplier (is_peak : Bool) : ℚ := if is_peak then 3/2 else 1

/-- `predicted_demand = int(base_demand * multiplier)` (ai_predictor.py
line 53); `int()` truncates, which on the non-negative table values is the
floor. -/
def predicted_demand (current_month : Nat) (category : String) : Int :=
  let pat := seasonal_patterns category
  ⌊(pat.2 : ℚ) * demand_multiplier (pat.1.contains current_month)⌋

/-- `stock_ratio = stock_quantity / (predicted_demand + 1)` (ai_predictor.py
line 56), Python true division. -/
def stock_ratio (stock predicted : Int) : ℚ := (stock : ℚ) / ((predicted : ℚ) + 1)

/-- The recorded confidence (ai_predictor.py lines 57 and 66):
`round(min(95, 60 + stock_ratio * 10), 1)`. -/
def confidence (stock predicted : Int) : ℚ :=
  round1 (min 95 (60 + stock_ratio stock predicted * 10))

/-- One output row of `AIPredictors.predict_high_demand_products`. -/
structure DemandPrediction where
  id : Int
  name : String
  category : String
  current_stock : Int
  predicted_demand : Int
  confidence : ℚ
  recommendation : String
  deriving DecidableEq, Repr

/-- The per-product body of the loop in
`AIPredictors.predict_high_demand_products` (ai_predictor.py lines 46-68). -/
def demand_entry (current_month : Nat) (p : Product) : DemandPrediction :=
  let category := p.category.getD "Other"
  let pd := predicted_demand current_month category
  { id := p.id, name := p.name, category := category,
    current_stock := p.stock_quantity, predicted_demand := pd,
    confidence := confidence p.stock_quantity pd,
    recommendation := if p.stock_quantity < pd then "Reorder" else "Maintain" }

/-- Ordering used by `sorted(..., key=predicted_demand, reverse=True)`; with a
stable sort this `a`-at-least-`b` relation reproduces Python's descending
stable sort. -/
def demandGE (a b : DemandPrediction) : Prop :=
  b.predicted_demand ≤ a.predicted_demand

instance : DecidableRel demandGE := fun a b =>
  inferInstanceAs (Decidable (b.predicted_demand ≤ a.predicted_demand))

/-- `AIPredictors.predict_high_demand_products` (ai_predictor.py lines 40-70)
on an already-fetched product list; Python's `sorted` is stable, modelled by
insertion sort. -/
def predict_high_demand_products (current_month : Nat) (products : List Product) :
    List DemandPrediction :=
  List.insertionSort demandGE (products.map (demand_entry current_month))

/-- `product.get("packaging_type", "unknown")` (ai_predictor.py line 82). -/
def pkg_of (p : Product) : String := p.packaging_type.getD "unknown"

/-- The packaging keys in first-occurrence order: Python dicts preserve
insertion order, so the grouping dict of ai_predictor.py lines 80-88 iterates
in this order. -/
def packaging_keys (products : List Product) : List String :=
  products.foldl (fun ks p => if pkg_of p ∈ ks then ks else ks ++ [pkg_of p]) []

/-- The members of one packaging group (the incremental per-key accumulation
of ai_predictor.py lines 81-88 collects exactly the rows with that key). -/
def group_products (products : List Product) (k : String) : List Product :=
  products.filter (fun p => pkg_of p == k)

/-- The accumulated `total_score` of a group. -/
def group_total (products : List Product) (k : String) : ℚ :=
  ((group_products products k).map Product.eco_score).sum

/-- `avg_score = total_score / count` (ai_predictor.py line 93). -/
def group_avg (products : List Product) (k : String) : ℚ :=
  group_total products k / ((group_products products k).length : ℚ)

/-- The rating ladder of ai_predictor.py line 98, applied to the unrounded
group mean. -/
def eco_rating (avg : ℚ) : String :=
  if avg ≥ 8 then "Excellent"
  else if avg ≥ 6 then "Good"
  else if avg ≥ 4 then "Fair"
  else "Poor"

/-- One output row of `AIPredictors.get_eco_score_analysis`; the reported
`avg_eco_score` is the rounded mean (ai_predictor.py line 97). -/
structure EcoEntry where
  packaging_type : String
  count : Nat
  avg_eco_score : ℚ
  rating : String
  deriving DecidableEq, Repr

/-- The analysis row for one packaging group (ai_predictor.py lines 92-99). -/
def eco_entry (products : List Product) (k : String) : EcoEntry :=
  { packaging_type := k, count := (group_products products k).length,
    avg_eco_score := round2 (group_avg products k),
    rating := eco_rating (group_avg products k) }

/-- Ordering of `sorted(analysis, key=avg_eco_score, reverse=True)`
(ai_predictor.py line 101): the key is the ROUNDED mean. -/
def ecoGE (a b : EcoEntry) : Prop := b.avg_eco_score ≤ a.avg_eco_score

instance : DecidableRel ecoGE := fun a b =>
  inferInstanceAs (Decidable (b.avg_eco_score ≤ a.avg_eco_score))

/-- `AIPredictors.get_eco_score_analysis` (ai_predictor.py lines 72-101) on an
already-fetched product list. -/
def get_eco_score_analysis (products : List Product) : List EcoEntry :=
  List.insertionSort ecoGE ((packaging_keys products).map (eco_entry products))

/-- One output row of `AIPredictors.predict_expiring_medicines`
(the `message`-free fields of ai_predictor.py lines 27-36). -/
structure ExpiryPrediction where
  id : Int
  name : String
  category : Option String
  expiry_date : ExpiryField
  days_left : Int
  stock : Int
  urgency_score : Int
  risk_level : String
  deriving DecidableEq, Repr

/-- The per-product body of the loop in
`AIPredictors.predict_expiring_medicines` (ai_predictor.py lines 23-36):
there is NO try/except around `strptime`, so a malformed or missing expiry
date raises out of the whole function (`none`). -/
def expiry_entry (today : Int) (p : Product) : Option ExpiryPrediction :=
  match parseExpiry p.expiry_date with
  | none => none
  | some d =>
    let days_left := d - today
    some { id := p.id, name := p.name, category := p.category,
           expiry_date := p.expiry_date, days_left := days_left,
           stock := p.stock_quantity, urgency_score := urgency_score days_left,
           risk_level := risk_level days_left }

/-- The loop of `predict_expiring_medicines`: appends each prediction, and an
exception at any item aborts the whole batch. -/
def traverse_predictions (today : Int) : List Product → Option (List ExpiryPrediction)
  | [] => some []
  | p :: ps =>
    match expiry_entry today p, traverse_predictions today ps with
    | some e, some es => some (e :: es)
    | _, _ => none

/-- Ordering of `sorted(predictions, key=days_left)` (ai_predictor.py
line 38). -/
def daysLE (a b : ExpiryPrediction) : Prop := a.days_left ≤ b.days_left

instance : DecidableRel daysLE := fun a b =>
  inferInstanceAs (Decidable (a.days_left ≤ b.days_left))

/-- `AIPredictors.predict_expiring_medicines` (ai_predictor.py lines 18-38) on
an already-fetched batch: `none` models the uncaught per-item exception
(surfaced by the `/api/insights` route as an error response). -/
def predict_expiring_medicines (today : Int) (expiring : List Product) :
    Option (List ExpiryPrediction) :=
  (traverse_predictions today expiring).map (List.insertionSort daysLE)

/-- One alert of `AlertManager.check_expiring_alerts` (the `message`-free
fields of alert_manager.py lines 55-62). -/
structure MgrAlert where
  product_id : Int
  product_name : String
  atype : String
  severity : String
  expiry_date : ExpiryField
  deriving DecidableEq, Repr

/-- The guarded per-item body of `AlertManager.check_expiring_alerts`
(alert_manager.py lines 37-65): the item-level try/except turns a parse
failure into a skip (`none`). -/
def mgr_alert_entry (today : Int) (p : Product) : Option MgrAlert :=
  (parseExpiry p.expiry_date).map (fun d =>
    { product_id := p.id, product_name := p.name, atype := "expiry",
      severity := manager_severity (d - today), expiry_date := p.expiry_date })

/-- `AlertManager.check_expiring_alerts` (alert_manager.py lines 30-70) on an
already-fetched batch: items whose date fails to parse are skipped and the
rest still processed. -/
def check_expiring_alerts (today : Int) (expiring : List Product) : List MgrAlert :=
  expiring.filterMap (mgr_alert_entry today)

/-- One alert of the `/api/alerts` route (the claim-relevant fields of
app.py lines 192-232).  `timestamp` abstracts the ISO string of
`datetime.now().isoformat()`: within one request those stamps are produced in
creation order, so they are modelled as a function of the creation index. -/
structure RouteAlert where
  alert_id : Nat
  atype : String
  severity : String
  product : String
  product_id : Int
  timestamp : Nat
  deriving DecidableEq, Repr

/-- The guarded per-item body of the expiry loop in `/api/alerts`
(app.py lines 181-211): the item-level try/except skips unparsable dates. -/
def route_expiry_alert (today : Int) (p : Product) : Option RouteAlert :=
  (parseExpiry p.expiry_date).map (fun d =>
    { alert_id := 0, atype := "expiry", severity := route_severity (d - today),
      product := p.name, product_id := p.id, timestamp := 0 })

/-- One stock alert of `/api/alerts` (app.py lines 216-232), always severity
`warning`. -/
def route_stock_alert (p : Product) : RouteAlert :=
  { alert_id := 0, atype := "stock", severity := "warning", product := p.name,
    product_id := p.id, timestamp := 0 }

/-- The alert list of `/api/alerts` before sorting: all expiry alerts, then
stock alerts for the first five low-stock products (`low_stock[:5]`,
app.py line 214); `alert_id` increments per appended alert and each alert is
stamped at creation (`ts i` for the `i`-th appended alert). -/
def build_alerts (today : Int) (ts : Nat → Nat) (expiring lowStock : List Product) :
    List RouteAlert :=
  ((expiring.filterMap (route_expiry_alert today)) ++
      (lowStock.take 5).map route_stock_alert).enum.map
    (fun ie => { ie.2 with alert_id := ie.1 + 1, timestamp := ts ie.1 })

/-- The `severity_order` ranking dict of app.py line 239, with the `.get`
default 3. -/
def severity_order (s : String) : Nat :=
  if s = "critical" then 0 else if s = "warning" then 1
  else if s = "info" then 2 else 3

/-- The sort key of app.py line 240 (`(severity_order, timestamp)`) as a
lexicographic at-most relation; Python's stable `list.sort` on this key is
modelled by insertion sort. -/
def alertLE (a b : RouteAlert) : Prop :=
  severity_order a.severity < severity_order b.severity ∨
    (severity_order a.severity = severity_order b.severity ∧
      a.timestamp ≤ b.timestamp)

instance : DecidableRel alertLE := fun a b =>
  inferInstanceAs (Decidable (severity_order a.severity < severity_order b.severity ∨
    (severity_order a.severity = severity_order b.severity ∧
      a.timestamp ≤ b.timestamp)))

/-- The sort key of an alert, for stating stability. -/
def alert_key (a : RouteAlert) : Nat × Nat := (severity_order a.severity, a.timestamp)

/-- The JSON envelope of `/api/alerts` (app.py lines 244-250). -/
structure AlertsResponse where
  alerts : List RouteAlert
  count : Nat
  critical_count : Nat
  warning_count : Nat
  deriving DecidableEq, Repr

/-- The `/api/alerts` route (app.py lines 165-255) on already-fetched expiring
and low-stock lists: build, sort by `(severity_order, timestamp)`, count. -/
def get_alerts (today : Int) (ts : Nat → Nat) (expiring lowStock : List Product) :
    AlertsResponse :=
  let alerts := List.insertionSort alertLE (build_alerts today ts expiring lowStock)
  { alerts := alerts, count := alerts.length,
    critical_count := alerts.countP (fun a => a.severity == "critical"),
    warning_count := alerts.countP (fun a => a.severity == "warning") }

/-- One alert of the `/api/alerts/filter` route (app.py lines 355-377). -/
structure FilterAlert where
  alert_id : Nat
  atype : String
  severity : String
  product : String
  timestamp : Nat
  deriving DecidableEq, Repr

/-- The per-item body of the expiry loop in `/api/alerts/filter`
(app.py lines 350-363): NO per-item try/except here, so an unparsable date
raises out of the whole route (`none`); `some none` is an item excluded by the
severity filter. -/
def filter_expiry_item (today : Int) (severity : String) (p : Product) :
    Option (Option FilterAlert) :=
  match parseExpiry p.expiry_date with
  | none => none
  | some d =>
    let sev := route_severity (d - today)
    if severity = "all" ∨ severity = sev then
      some (some { alert_id := 0, atype := "expiry", severity := sev,
                   product := p.name, timestamp := 0 })
    else some none

/-- The per-item body of the stock loop in `/api/alerts/filter`
(app.py lines 367-377). -/
def filter_stock_item (severity : String) (p : Product) : Option FilterAlert :=
  if severity = "all" ∨ severity = "warning" then
    some { alert_id := 0, atype := "stock", severity := "warning",
           product := p.name, timestamp := 0 }
  else none

/-- The loop of the expiry half of `/api/alerts/filter`: abort on the first
exception, keep the filter-passing items. -/
def traverse_filter_expiry (today : Int) (severity : String) :
    List Product → Option (List FilterAlert)
  | [] => some []
  | p :: ps =>
    match filter_expiry_item today severity p, traverse_filter_expiry today severity ps with
    | some o, some rest => some (o.toList ++ rest)
    | _, _ => none

/-- The `/api/alerts/filter` route (app.py lines 334-385) on already-fetched
lists: the expiry loop runs when the type filter admits expiry alerts; the
stock loop iterates `low_stock[:3]` (truncation BEFORE the severity test,
app.py line 367); ids and stamps are assigned in append order. -/
def filter_alerts (today : Int) (ts : Nat → Nat) (alert_type severity : String)
    (expiring lowStock : List Product) : Option (List FilterAlert) :=
  let expiryPart : Option (List FilterAlert) :=
    if alert_type = "expiry" ∨ alert_type = "all" then
      traverse_filter_expiry today severity expiring
    else some []
  let stockPart : List FilterAlert :=
    if alert_type = "stock" ∨ alert_type = "all" then
      (lowStock.take 3).filterMap (filter_stock_item severity)
    else []
  expiryPart.map (fun ep => (ep ++ stockPart).enum.map
    (fun ie => { ie.2 with alert_id := ie.1 + 1, timestamp := ts ie.1 }))

/-- The filtering pipeline as the spec states it (spec section 4.2): both
filters are applied first and any size cap only afterwards — the stock cap of
three is taken AFTER the severity filter.  Everything else is as in
`filter_alerts`. -/
def filter_alerts_spec (today : Int) (ts : Nat → Nat) (alert_type severity : String)
    (expiring lowStock : List Product) : Option (List FilterAlert) :=
  let expiryPart : Option (List FilterAlert) :=
    if alert_type = "expiry" ∨ alert_type = "all" then
      traverse_filter_expiry today severity expiring
    else some []
  let stockPart : List FilterAlert :=
    if alert_type = "stock" ∨ alert_type = "all" then
      (lowStock.filterMap (filter_stock_item severity)).take 3
    else []
  expiryPart.map (fun ep => (ep ++ stockPart).enum.map
    (fun ie => { ie.2 with alert_id := ie.1 + 1, timestamp := ts ie.1 }))

/-- Prefix test on character lists, used for substring containment. -/
def list_starts_with : List Char → List Char → Bool
  | [], _ => true
  | _ :: _, [] => false
  | a :: as, b :: bs => a == b && list_starts_with as bs

/-- Python's `needle in haystack` substring containment on character lists. -/
def list_contains_sub : List Char → List Char → Bool
  | [], needle => list_starts_with needle []
  | h :: t, needle => list_starts_with needle (h :: t) || list_contains_sub t needle

/-- Python's `str.strip()` on a character list: drop leading and trailing
whitespace. -/
def py_strip (s : List Char) : List Char :=
  ((s.dropWhile Char.isWhitespace).reverse.dropWhile Char.isWhitespace).reverse

/-- `user_message.lower().strip()` (chatbot.py line 18) on the character
list. -/
def normalize_message (s : String) : List Char :=
  py_strip (s.data.map Char.toLower)

/-- Which report generator `PharmacyChatbot.get_response` dispatches to. -/
inductive BotRoute where
  | greeting
  | total_products
  | expiring
  | low_stock
  | inventory_status
  | categories
  | eco
  | search
  | help_menu
  | fallback
  deriving DecidableEq, Repr

/-- The ordered keyword table of the if/elif chain in
`PharmacyChatbot.get_response` (chatbot.py lines 24-53). -/
def keyword_groups : List (List String × BotRoute) :=
  [(["total products", "how many products", "total medicines",
     "products available", "count products"], .total_products),
   (["expiring", "expire", "expired", "about to expire", "expiry"], .expiring),
   (["low stock", "stock low", "running out", "inventory low", "reorder"], .low_stock),
   (["inventory", "stock status", "inventory status", "overall status"],
     .inventory_status),
   (["category", "categories", "types", "medicines by"], .categories),
   (["eco", "sustainable", "packaging", "environmental", "green"], .eco),
   (["find", "search", "look for", "show me"], .search),
   (["help", "hello", "hi", "what can you", "can you help", "assist", "info"],
     .help_menu)]

/-- The dispatcher of `PharmacyChatbot.get_response` (chatbot.py lines 15-56):
lowercase and trim the input, then take the first keyword group with a member
contained in the message; no match falls through to the default response. -/
def get_response (user_message : String) : BotRoute :=
  let message := normalize_message user_message
  if message.isEmpty then .greeting
  else
    match keyword_groups.find? (fun g =>
        g.1.any (fun kw => list_contains_sub message kw.data)) with
    | some g => g.2
    | none => .fallback

/-- Sort key for the `ORDER BY expiry_date ASC` of the expiring-products
query; every selected row has a real date, so the default is never used. -/
def expiry_key (p : Product) : Int := (parseExpiry p.expiry_date).getD 0

/-- Ordering of the `ORDER BY expiry_date ASC` clause. -/
def expLE (a b : Product) : Prop := expiry_key a ≤ expiry_key b

instance : DecidableRel expLE := fun a b =>
  inferInstanceAs (Decidable (expiry_key a ≤ expiry_key b))

/-- `Database.get_expiring_products` (database.py lines 175-206): rows with
`today <= expiry_date <= today + days`, ordered by expiry date ascending.
NULL dates fail both SQL comparisons, and the `DATE` column round-trips
through `strftime("%Y-%m-%d")`, so consumers reparse the same day number. -/
def get_expiring_products (table : List Product) (today days : Int) :
    List Product :=
  List.insertionSort expLE (table.filter (fun p =>
    match parseExpiry p.expiry_date with
    | some d => decide (today ≤ d) && decide (d ≤ today + days)
    | none => false))

/-- The per-item bucket of `PharmacyChatbot._get_expiring_info`
(chatbot.py lines 106-113): the label attached to each expiring product, with
`"EXPIRED"` on the negative-days branch. -/
def chat_expiry_bucket (days_left : Int) : String :=
  if days_left < 0 then "EXPIRED"
  else if days_left ≤ 3 then "critical"
  else if days_left ≤ 7 then "warning"
  else "none"

instance : IsTotal RouteAlert alertLE :=
  ⟨fun a b => by unfold alertLE; omega⟩

instance : IsTrans RouteAlert alertLE :=
  ⟨fun a b c hab hbc => by unfold alertLE at hab hbc ⊢; omega⟩

instance : IsTotal EcoEntry ecoGE :=
  ⟨fun a b => le_total b.avg_eco_score a.avg_eco_score⟩

instance : IsTrans EcoEntry ecoGE :=
  ⟨fun _ _ _ hab hbc => le_trans hbc hab⟩

/-- A product expiring three days after day 0, for the concrete batches. -/
def goodProduct : Product :=
  { sampleProduct with expiry_date := .date 3 }

/-- A product whose stored expiry date does not parse. -/
def badProduct : Product :=
  { sampleProduct with
      id := 2, name := "Mystery Tonic", barcode := some "BAD001",
      expiry_date := .malformed }

/-- Concrete product with packaging group `"a"` and eco score 7.001. -/
def ecoA : Product :=
  { sampleProduct with
      id := 3, barcode := some "ECO-A",
      packaging_type := some "a", eco_score := 7001/1000 }

/-- Concrete product with packaging group `"b"` and eco score 7.004. -/
def ecoB : Product :=
  { sampleProduct with
      id := 4, barcode := some "ECO-B",
      packaging_type := some "b", eco_score := 7004/1000 }

/-- A two-group product list whose group means differ by less than half of the
rounding granularity. -/
def ecoPs : List Product := [ecoA, ecoB]

/-- The chat input `"what's expiring?"` (the apostrophe is code point 39). -/
def whats_expiring : String :=
  "what" ++ String.singleton (Char.ofNat 39) ++ "s expiring?"

/-- The prediction row built for a product whose expiry parses to day `d`
(the record appended at ai_predictor.py lines 27-36). -/
def expiry_entry_at (today d : Int) (p : Product) : ExpiryPrediction :=
  { id := p.id, name := p.name, category := p.category,
    expiry_date := p.expiry_date, days_left := d - today,
    stock := p.stock_quantity, urgency_score := urgency_score (d - today),
    risk_level := risk_level (d - today) }

-- THEOREMS-MARKER

/-- A `filterMap` whose function always succeeds is the `map` of the values. -/
theorem filterMap_all_some {α β : Type} (f : α → Option β) (g : α → β)
    (h : ∀ a, f a = some (g a)) (l : List α) : l.filterMap f = l.map g := by
  induction l with
  | nil => rfl
  | cons a t ih => simp [List.filterMap_cons, h a, ih]

/-- A `filterMap` whose function always fails is empty. -/
theorem filterMap_all_none {α β : Type} (f : α → Option β)
    (h : ∀ a, f a = none) (l : List α) : l.filterMap f = [] := by
  induction l with
  | nil => rfl
  | cons a t ih => simp [List.filterMap_cons, h a, ih]

/-- Ordered insertion leaves the sublist of any fixed key unchanged apart from
placing the inserted element first, provided equal keys are always related:
this is the stability of insertion sort, keywise. -/
theorem filter_key_orderedInsert {α κ : Type} [DecidableEq κ]
    (r : α → α → Prop) [DecidableRel r] (key : α → κ)
    (hr : ∀ a b, ¬ r a b → key a ≠ key b) (k : κ) (a : α) (l : List α) :
    (List.orderedInsert r a l).filter (fun x => decide (key x = k)) =
      if key a = k then a :: l.filter (fun x => decide (key x = k))
      else l.filter (fun x => decide (key x = k)) := by
  induction l with
  | nil =>
    simp only [List.orderedInsert, List.filter_cons, List.filter_nil]
    by_cases h : key a = k <;> simp [h]
  | cons b t ih =>
    simp only [List.orderedInsert]
    by_cases hab : r a b
    · rw [if_pos hab]
      simp only [List.filter_cons]
      by_cases ha : key a = k <;> by_cases hb : key b = k <;> simp [ha, hb]
    · rw [if_neg hab]
      have hk : key a ≠ key b := hr a b hab
      simp only [List.filter_cons]
      by_cases hb : key b = k
      · have ha : ¬ key a = k := fun hak => hk (hak.trans hb.symm)
        simp [hb, ih, ha]
      · simp [hb, ih]

/-- Keywise stability of insertion sort: sorting does not change the sublist
at any fixed key value. -/
theorem filter_key_insertionSort {α κ : Type} [DecidableEq κ]
    (r : α → α → Prop) [DecidableRel r] (key : α → κ)
    (hr : ∀ a b, ¬ r a b → key a ≠ key b) (k : κ) (l : List α) :
    (List.insertionSort r l).filter (fun x => decide (key x = k)) =
      l.filter (fun x => decide (key x = k)) := by
  induction l with
  | nil => rfl
  | cons a t ih =>
    simp only [List.insertionSort]
    rw [filter_key_orderedInsert r key hr k a _, ih]
    by_cases h : key a = k <;> simp [h, List.filter_cons]

/-- Counts of two mutually exclusive predicates add up to the count of their
disjunction. -/
theorem countP_disjoint {α : Type} (p q : α → Bool) (l : List α)
    (h : ∀ a ∈ l, ¬(p a = true ∧ q a = true)) :
    l.countP p + l.countP q = l.countP (fun a => p a || q a) := by
  induction l with
  | nil => rfl
  | cons a t ih =>
    have ht := ih (fun x hx => h x (List.mem_cons_of_mem a hx))
    have ha := h a (List.mem_cons_self a t)
    simp only [List.countP_cons]
    by_cases hp : p a <;> by_cases hq : q a <;>
      simp [hp, hq] at ha ⊢ <;> omega

/-- Claim C3 counterexample: `predict_expiring_medicines` processes a
well-formed batch, but adding one product with a malformed expiry date makes
the WHOLE batch fail (`none`, surfaced by `/api/insights` as an error
response) instead of skipping the item — there is no per-item try/except in
ai_predictor.py lines 23-36. -/
theorem C3_predictor_fails_whole_batch :
    predict_expiring_medicines 0 [goodProduct] =
      some [{ id := 1, name := "Aspirin 500mg", category := some "Analgesics",
              expiry_date := .date 3, days_left := 3, stock := 150,
              urgency_score := 7, risk_level := "high" }] ∧
    predict_expiring_medicines 0 [goodProduct, badProduct] = none := by
  decide

/-- A failing item anywhere in the batch aborts the prediction loop. -/
theorem traverse_none_of_mem (today : Int) (l : List Product) (p : Product)
    (hmem : p ∈ l) (hp : expiry_entry today p = none) :
    traverse_predictions today l = none := by
  induction l with
  | nil => cases hmem
  | cons a t ih =>
    rcases List.mem_cons.mp hmem with h | h
    · subst h
      simp [traverse_predictions, hp]
    · simp only [traverse_predictions, ih h]
      cases expiry_entry today a <;> rfl

/-- Claim C3 (amended): the expiry-alert check (`check_expiring_alerts`)
skips an item with a malformed or missing expiry date and still processes all
other items, never failing the batch; the expiring-medicines prediction does
NOT — there a malformed or missing date fails the whole batch. -/
theorem C3_amended_item_granularity (today : Int) (xs ys : List Product)
    (p : Product) (hp : parseExpiry p.expiry_date = none) :
    check_expiring_alerts today (xs ++ p :: ys) =
      check_expiring_alerts today (xs ++ ys) ∧
    predict_expiring_medicines today (xs ++ p :: ys) = none := by
  constructor
  · have hnone : mgr_alert_entry today p = none := by
      simp [mgr_alert_entry, hp]
    simp [check_expiring_alerts, List.filterMap_append, List.filterMap_cons, hnone]
  · have he : expiry_entry today p = none := by
      simp [expiry_entry, hp]
    have habort : traverse_predictions today (xs ++ p :: ys) = none :=
      traverse_none_of_mem today (xs ++ p :: ys) p (by simp) he
    simp [predict_expiring_medicines, habort]

/-- Witness for the amended C3 at a concrete batch: the malformed item is
dropped by the alert check and aborts the predictor. -/
theorem C3_amended_witness :
    parseExpiry badProduct.expiry_date = none ∧
    (check_expiring_alerts 0 ([goodProduct] ++ badProduct :: []) =
        check_expiring_alerts 0 ([goodProduct] ++ []) ∧
      predict_expiring_medicines 0 ([goodProduct] ++ badProduct :: []) = none) :=
  ⟨rfl, C3_amended_item_granularity 0 [goodProduct] [] badProduct rfl⟩

/-- Claim C6: in the alerts filter mode, the response equals the one produced
by applying the type and severity filters first and any size cap only
afterwards — no alert matching the filters is lost to a cap applied before
filtering (the stock severity test does not depend on the product, so the
cap-then-filter order of the code coincides with filter-then-cap). -/
theorem C6_filters_before_truncation (today : Int) (ts : Nat → Nat)
    (alert_type severity : String) (expiring lowStock : List Product) :
    filter_alerts today ts alert_type severity expiring lowStock =
      filter_alerts_spec today ts alert_type severity expiring lowStock := by
  unfold filter_alerts filter_alerts_spec
  have hstock : (lowStock.take 3).filterMap (filter_stock_item severity) =
      (lowStock.filterMap (filter_stock_item severity)).take 3 := by
    by_cases hC : severity = "all" ∨ severity = "warning"
    · rw [filterMap_all_some (filter_stock_item severity)
          (fun p => { alert_id := 0, atype := "stock", severity := "warning",
                      product := p.name, timestamp := 0 })
          (fun p => by simp [filter_stock_item, hC]),
        filterMap_all_some (filter_stock_item severity)
          (fun p => { alert_id := 0, atype := "stock", severity := "warning",
                      product := p.name, timestamp := 0 })
          (fun p => by simp [filter_stock_item, hC]),
        List.map_take]
    · rw [filterMap_all_none (filter_stock_item severity)
          (fun p => by simp [filter_stock_item, hC]),
        filterMap_all_none (filter_stock_item severity)
          (fun p => by simp [filter_stock_item, hC])]
      rfl
  rw [hstock]

/-- Claim C9: after lowercasing and trimming, the dispatcher tries the keyword
groups in order and the first match selects the generator: `"what's
expiring?"` selects the expiry summary, and `"xyz nonsense"` matches no group
and falls through to the default response. -/
theorem C9_chat_dispatch :
    get_response whats_expiring = BotRoute.expiring ∧
    get_response "xyz nonsense" = BotRoute.fallback := by
  decide

unseal Rat.mul Rat.inv Rat.add in
/-- Claim C1 (code bug, evaluated at the failing input): adding a product whose
barcode already exists leaves the existing row unchanged (the insert rolls
back), but the route answers `status = "success"` with `product_id = null`
instead of the conflict error the claim requires.  The missing-required-field
half of the claim does hold: it is answered with a 400 error. -/
theorem C1_duplicate_barcode_reports_success :
    (add_product [sampleProduct] dupRequest).1.status = "success" ∧
    (add_product [sampleProduct] dupRequest).1.product_id = none ∧
    (add_product [sampleProduct] dupRequest).2 = [sampleProduct] ∧
    (add_product [sampleProduct] missingFieldRequest).1.status = "error" ∧
    (add_product [sampleProduct] missingFieldRequest).1.http_code = 400 := by
  decide

/-- Claim C2: a complete sale request whose quantity exceeds the product's
stock is rejected with the insufficient-stock error, and the store is returned
unchanged — no stock update and no transaction row on the error path. -/
theorem C2_insufficient_stock_rejected (s : Store) (req : SaleRequest)
    (barcode : String) (quantity : Int) (amount : ℚ) (product_id : Int)
    (product : Product)
    (hb : req.barcode = some barcode) (hq : req.quantity = some quantity)
    (ha : req.amount = some amount) (hp : req.product_id = some product_id)
    (hfind : get_product_by_id s.products product_id = some product)
    (hstock : product.stock_quantity < quantity) :
    record_sale s req =
      ({ status := "error", http_code := 400,
         message := "Insufficient stock", transaction_id := none }, s) := by
  simp only [record_sale, hb, hq, ha, hp, hfind, if_pos hstock]

unseal Rat.mul Rat.inv Rat.add in
/-- Witness for C2: the quantity-10 sale against stock 5 is rejected and the
store is unchanged. -/
theorem C2_insufficient_stock_rejected_witness :
    get_product_by_id saleStore.products 1 =
        some ({ sampleProduct with stock_quantity := 5 } : Product) ∧
    ({ sampleProduct with stock_quantity := 5 } : Product).stock_quantity < 10 ∧
    record_sale saleStore saleReq =
      ({ status := "error", http_code := 400,
         message := "Insufficient stock", transaction_id := none }, saleStore) :=
  ⟨by decide, by decide,
    C2_insufficient_stock_rejected saleStore saleReq "ASP001" 10 60 1
      ({ sampleProduct with stock_quantity := 5 })
      rfl rfl rfl rfl (by decide) (by decide)⟩

/-- Claim C4: for every product whose expiry date is strictly before today
(negative `days_left`), every risk-classification site — the 3-tier predictor,
the 2-tier alerts route, and the alert-manager check — assigns `critical`. -/
theorem C4_expired_always_critical (days_left : Int) (h : days_left < 0) :
    risk_level days_left = "critical" ∧ route_severity days_left = "critical" ∧
      manager_severity days_left = "critical" := by
  unfold risk_level route_severity manager_severity
  refine ⟨?_, ?_, ?_⟩ <;> rw [if_pos (by omega)]

/-- Witness for C4 at the concrete input `days_left = -1`. -/
theorem C4_expired_always_critical_witness :
    (-1 : Int) < 0 ∧ (risk_level (-1) = "critical" ∧ route_severity (-1) = "critical" ∧
      manager_severity (-1) = "critical") :=
  ⟨by decide, C4_expired_always_critical (-1) (by decide)⟩


/-- Alerts unrelated under `alertLE` have distinct sort keys. -/
theorem alert_key_ne_of_not_le (a b : RouteAlert) (h : ¬ alertLE a b) :
    alert_key a ≠ alert_key b := by
  intro he
  have h1 : severity_order a.severity = severity_order b.severity :=
    congrArg Prod.fst he
  have h2 : a.timestamp = b.timestamp := congrArg Prod.snd he
  exact h (Or.inr ⟨h1, by omega⟩)

/-- Claim C5: the alerts-list response is sorted by severity rank first
(critical before warning before info) and timestamp second, ascending; ties
(equal rank and stamp) keep insertion order — the sublist at every sort key is
exactly the pre-sort sublist; and the reported counts satisfy
`critical_count + warning_count <= count`, with equality whenever no third
severity class occurs in the list. -/
theorem C5_alerts_sorted_counts (today : Int) (ts : Nat → Nat)
    (expiring lowStock : List Product) :
    List.Sorted alertLE (get_alerts today ts expiring lowStock).alerts ∧
    (∀ k : Nat × Nat,
      (get_alerts today ts expiring lowStock).alerts.filter
          (fun a => decide (alert_key a = k)) =
        (build_alerts today ts expiring lowStock).filter
          (fun a => decide (alert_key a = k))) ∧
    (get_alerts today ts expiring lowStock).critical_count +
        (get_alerts today ts expiring lowStock).warning_count ≤
      (get_alerts today ts expiring lowStock).count ∧
    ((∀ a ∈ (get_alerts today ts expiring lowStock).alerts,
        a.severity = "critical" ∨ a.severity = "warning") →
      (get_alerts today ts expiring lowStock).critical_count +
          (get_alerts today ts expiring lowStock).warning_count =
        (get_alerts today ts expiring lowStock).count) := by
  have hdisj : ∀ a : RouteAlert, a ∈ (get_alerts today ts expiring lowStock).alerts →
      ¬((a.severity == "critical") = true ∧ (a.severity == "warning") = true) := by
    intro a _ h
    obtain ⟨h1, h2⟩ := h
    rw [beq_iff_eq] at h1 h2
    exact absurd (h1.symm.trans h2) (by decide)
  have hsum := countP_disjoint (fun a => a.severity == "critical")
    (fun a => a.severity == "warning")
    (get_alerts today ts expiring lowStock).alerts hdisj
  refine ⟨List.sorted_insertionSort alertLE _, ?_, ?_, ?_⟩
  · intro k
    exact filter_key_insertionSort alertLE alert_key alert_key_ne_of_not_le k _
  · show (get_alerts today ts expiring lowStock).alerts.countP _ +
        (get_alerts today ts expiring lowStock).alerts.countP _ ≤
      (get_alerts today ts expiring lowStock).alerts.length
    rw [hsum]
    exact List.countP_le_length _
  · intro hall
    show (get_alerts today ts expiring lowStock).alerts.countP _ +
        (get_alerts today ts expiring lowStock).alerts.countP _ =
      (get_alerts today ts expiring lowStock).alerts.length
    rw [hsum]
    refine List.countP_eq_length.mpr ?_
    intro a ha
    rcases hall a ha with h | h <;> simp [h]

/-- Witness for C5 at a concrete request: one expiring product, no low-stock
products, every alert critical or warning, and the counts add up exactly. -/
theorem C5_witness :
    (∀ a ∈ (get_alerts 0 id [goodProduct] []).alerts,
        a.severity = "critical" ∨ a.severity = "warning") ∧
    (get_alerts 0 id [goodProduct] []).critical_count +
        (get_alerts 0 id [goodProduct] []).warning_count =
      (get_alerts 0 id [goodProduct] []).count :=
  ⟨by decide, (C5_alerts_sorted_counts 0 id [goodProduct] []).2.2.2 (by decide)⟩

unseal Rat.mul Rat.inv Rat.add in
/-- Claim C7 counterexample: with group `"a"` holding one product of eco score
7.001 and group `"b"` one of 7.004, both rounded means are 7.0, so the stable
descending sort keeps first-occurrence order and lists `"a"` before `"b"`
even though the true mean of `"a"` is strictly smaller — the analysis does
NOT rank groups by the (unrounded) arithmetic mean descending. -/
theorem C7_rank_not_by_true_mean :
    (get_eco_score_analysis ecoPs).map EcoEntry.packaging_type = ["a", "b"] ∧
    group_avg ecoPs "a" < group_avg ecoPs "b" := by
  decide

unseal Rat.mul Rat.inv Rat.add in
/-- Claim C7 (amended): the eco-score analysis groups products by
`packaging_type`, computes the arithmetic mean eco score per group, ranks
groups by the mean ROUNDED to two decimals descending (ties keep
first-occurrence order), and maps the unrounded mean to a rating with
boundaries `>=8` Excellent, `>=6` Good, `>=4` Fair, else Poor — so exactly
8.0 yields Excellent, 7.999 Good, exactly 6.0 Good, 3.999 Poor. -/
theorem C7_amended_eco_analysis (products : List Product) :
    List.Sorted ecoGE (get_eco_score_analysis products) ∧
    (∀ e ∈ get_eco_score_analysis products, ∃ k ∈ packaging_keys products,
        e = eco_entry products k) ∧
    eco_rating 8 = "Excellent" ∧ eco_rating (7999/1000) = "Good" ∧
    eco_rating 6 = "Good" ∧ eco_rating (3999/1000) = "Poor" := by
  refine ⟨List.sorted_insertionSort ecoGE _, ?_, by decide, by decide, by decide,
    by decide⟩
  intro e he
  have hm : e ∈ (packaging_keys products).map (eco_entry products) :=
    (List.perm_insertionSort ecoGE _).mem_iff.mp he
  rcases List.mem_map.mp hm with ⟨k, hk, hke⟩
  exact ⟨k, hk, hke.symm⟩

unseal Rat.mul Rat.inv Rat.add in
/-- Witness for the amended C7: the `"a"` entry of the concrete analysis is an
output row and comes from a grouping key. -/
theorem C7_amended_witness :
    eco_entry ecoPs "a" ∈ get_eco_score_analysis ecoPs ∧
    (∃ k ∈ packaging_keys ecoPs, eco_entry ecoPs "a" = eco_entry ecoPs k) :=
  ⟨by decide,
    (C7_amended_eco_analysis ecoPs).2.1 (eco_entry ecoPs "a") (by decide)⟩

/-- Rounding to one decimal is monotone. -/
theorem round1_mono {x y : ℚ} (h : x ≤ y) : round1 x ≤ round1 y := by
  unfold round1
  have hf : (⌊x * 10 + 1/2⌋ : ℤ) ≤ ⌊y * 10 + 1/2⌋ :=
    Int.floor_le_floor (by linarith)
  have hc : ((⌊x * 10 + 1/2⌋ : ℤ) : ℚ) ≤ ((⌊y * 10 + 1/2⌋ : ℤ) : ℚ) := by
    exact_mod_cast hf
  linarith

/-- Rounding 95 to one decimal gives 95. -/
theorem round1_95 : round1 (95 : ℚ) = 95 := by
  unfold round1
  have h950 : ⌊(95 : ℚ) * 10 + 1/2⌋ = 950 := by
    rw [Int.floor_eq_iff]
    constructor <;> norm_num
  rw [h950]
  norm_num

/-- The recorded confidence never exceeds 95. -/
theorem confidence_le_95 (s pd : Int) : confidence s pd ≤ 95 := by
  unfold confidence
  calc round1 (min 95 (60 + stock_ratio s pd * 10)) ≤ round1 95 :=
        round1_mono (min_le_left _ _)
    _ = 95 := round1_95

/-- The recorded confidence is monotone in the stock for a fixed non-negative
predicted demand. -/
theorem confidence_mono (s1 s2 pd : Int) (hpd : 0 ≤ pd) (h : s1 ≤ s2) :
    confidence s1 pd ≤ confidence s2 pd := by
  unfold confidence
  apply round1_mono
  apply min_le_min le_rfl
  have hpos : (0 : ℚ) < (pd : ℚ) + 1 := by
    have hq : (0 : ℚ) ≤ (pd : ℚ) := by exact_mod_cast hpd
    linarith
  have hr : stock_ratio s1 pd ≤ stock_ratio s2 pd := by
    unfold stock_ratio
    exact (div_le_div_iff_of_pos_right hpos).mpr (by exact_mod_cast h)
  linarith

/-- Claim C8: every demand prediction's confidence is
`round(min(95, 60 + stock_ratio * 10), 1)` with
`stock_ratio = stock_quantity / (predicted_demand + 1)`; the confidence is
clamped at 95 and is monotonically non-decreasing in the stock for a fixed
predicted demand (hence in the stock ratio). -/
theorem C8_confidence_formula (current_month : Nat) (products : List Product) :
    (∀ e ∈ predict_high_demand_products current_month products,
        ∃ p ∈ products, e = demand_entry current_month p ∧
          e.confidence = round1 (min 95
            (60 + stock_ratio p.stock_quantity e.predicted_demand * 10)) ∧
          e.confidence ≤ 95) ∧
    (∀ s1 s2 pd : Int, 0 ≤ pd → s1 ≤ s2 →
        confidence s1 pd ≤ confidence s2 pd) := by
  constructor
  · intro e he
    have hm : e ∈ products.map (demand_entry current_month) :=
      (List.perm_insertionSort demandGE _).mem_iff.mp he
    rcases List.mem_map.mp hm with ⟨p, hp, hpe⟩
    subst hpe
    exact ⟨p, hp, rfl, rfl, confidence_le_95 _ _⟩
  · exact confidence_mono

unseal Rat.mul Rat.inv Rat.add in
/-- Witness for C8 at concrete inputs: the sample product's prediction
satisfies the formula and the clamp, and a concrete monotonicity instance. -/
theorem C8_confidence_witness :
    demand_entry 1 sampleProduct ∈ predict_high_demand_products 1 [sampleProduct] ∧
    (∃ p ∈ [sampleProduct], demand_entry 1 sampleProduct = demand_entry 1 p ∧
        (demand_entry 1 sampleProduct).confidence = round1 (min 95
          (60 + stock_ratio p.stock_quantity
            (demand_entry 1 sampleProduct).predicted_demand * 10)) ∧
        (demand_entry 1 sampleProduct).confidence ≤ 95) ∧
    ((0 : Int) ≤ 100 ∧ (5 : Int) ≤ 7) ∧ confidence 5 100 ≤ confidence 7 100 :=
  ⟨by decide,
   (C8_confidence_formula 1 [sampleProduct]).1 (demand_entry 1 sampleProduct)
     (by decide),
   ⟨by decide, by decide⟩,
   (C8_confidence_formula 1 [sampleProduct]).2 5 7 100 (by decide) (by decide)⟩

/-- A batch in which every expiry date parses to a day at or after today is
fully processed, and every prediction has non-negative `days_left`. -/
theorem traverse_some_of_parseable (today : Int) (l : List Product)
    (h : ∀ p ∈ l, ∃ d, parseExpiry p.expiry_date = some d ∧ today ≤ d) :
    ∃ es, traverse_predictions today l = some es ∧ ∀ e ∈ es, 0 ≤ e.days_left := by
  induction l with
  | nil => exact ⟨[], rfl, by simp⟩
  | cons p t ih =>
    obtain ⟨d, hd, hdt⟩ := h p (List.mem_cons_self p t)
    obtain ⟨es, hes, hall⟩ := ih (fun q hq => h q (List.mem_cons_of_mem p hq))
    have hentry : expiry_entry today p = some (expiry_entry_at today d p) := by
      simp [expiry_entry, expiry_entry_at, hd]
    refine ⟨expiry_entry_at today d p :: es, ?_, ?_⟩
    · simp [traverse_predictions, hentry, hes]
    · intro e hee
      rcases List.mem_cons.mp hee with h1 | h1
      · subst h1
        show (0 : Int) ≤ d - today
        omega
      · exact hall e h1

/-- Claim C10: the expiring-products query only returns rows whose expiry date
lies between today and today plus the window, so every downstream expiry
computation sees `days_left >= 0`: the chatbot's `"EXPIRED"` branch is
unreachable on its output, and the predictor processes the whole query result
with only non-negative `days_left`. -/
theorem C10_query_nonnegative_days (table : List Product) (today days : Int) :
    (∀ p ∈ get_expiring_products table today days,
        ∃ d, parseExpiry p.expiry_date = some d ∧ 0 ≤ d - today ∧
          chat_expiry_bucket (d - today) ≠ "EXPIRED") ∧
    (∃ preds, predict_expiring_medicines today
        (get_expiring_products table today days) = some preds ∧
      ∀ e ∈ preds, 0 ≤ e.days_left) := by
  have hmem : ∀ p ∈ get_expiring_products table today days,
      ∃ d, parseExpiry p.expiry_date = some d ∧ today ≤ d := by
    intro p hp
    have hp2 : p ∈ table.filter (fun p =>
        match parseExpiry p.expiry_date with
        | some d => decide (today ≤ d) && decide (d ≤ today + days)
        | none => false) :=
      (List.perm_insertionSort expLE _).mem_iff.mp hp
    have hcond := (List.mem_filter.mp hp2).2
    cases hcase : parseExpiry p.expiry_date with
    | none => rw [hcase] at hcond; simp at hcond
    | some d =>
      rw [hcase] at hcond
      simp only [Bool.and_eq_true, decide_eq_true_eq] at hcond
      exact ⟨d, rfl, hcond.1⟩
  constructor
  · intro p hp
    obtain ⟨d, hd, hdt⟩ := hmem p hp
    refine ⟨d, hd, by omega, ?_⟩
    unfold chat_expiry_bucket
    rw [if_neg (by omega)]
    split_ifs <;> decide
  · obtain ⟨es, hes, hall⟩ := traverse_some_of_parseable today _ hmem
    refine ⟨List.insertionSort daysLE es, ?_, ?_⟩
    · simp [predict_expiring_medicines, hes]
    · intro e he
      exact hall e ((List.perm_insertionSort daysLE _).mem_iff.mp he)

unseal Rat.mul Rat.inv Rat.add in
/-- Witness for C10: the sample product sits in a concrete query window and
its days-left classification is not `"EXPIRED"`. -/
theorem C10_witness :
    sampleProduct ∈ get_expiring_products [sampleProduct] 20498 4 ∧
    (∃ d, parseExpiry sampleProduct.expiry_date = some d ∧ 0 ≤ d - 20498 ∧
      chat_expiry_bucket (d - 20498) ≠ "EXPIRED") :=
  ⟨by decide,
    (C10_query_nonnegative_days [sampleProduct] 20498 4).1 sampleProduct
      (by decide)⟩

end SmartPharma
